import Mathlib

/-!
Shallow embedding of the HeyPico maps backend (src/backend/maps/places.js,
src/backend/agent.js, and the express chat endpoint) together with proofs
about the claims of its specification.

JavaScript numbers are modelled as real numbers where transcendental
functions are involved (`Math.sin`, `Math.cos`, `Math.atan2`, `Math.sqrt`)
and as rationals where only field arithmetic and comparisons occur
(coordinates arriving over the wire).  Absent (`undefined`/`null`) values
are modelled with `Option`.
-/

namespace HeyPico

/-! ## Geo utility (src/backend/maps/places.js lines 16-50) -/

/-- `Math.round x` of JavaScript: round half toward positive infinity.
`Number.prototype.toFixed(1)` also picks the larger of two equally close
candidates, so `jsRound (x * 10)` is the digit sequence of `x.toFixed(1)`. -/
noncomputable def jsRound (x : ℝ) : ℤ := ⌊x + 1/2⌋

/-- `toRad` of places.js line 33: degrees to radians. -/
noncomputable def toRad (degrees : ℝ) : ℝ := degrees * (Real.pi / 180)

/-- `Math.atan2 y x` of JavaScript, by branch on the quadrant. -/
noncomputable def atan2 (y x : ℝ) : ℝ :=
  if 0 < x then Real.arctan (y / x)
  else if x < 0 ∧ 0 ≤ y then Real.arctan (y / x) + Real.pi
  else if x < 0 ∧ y < 0 then Real.arctan (y / x) - Real.pi
  else if x = 0 ∧ 0 < y then Real.pi / 2
  else if x = 0 ∧ y < 0 then -(Real.pi / 2)
  else 0

/-- `calculateDistance` of places.js lines 16-28: haversine distance with
Earth radius 6371 km. -/
noncomputable def calculateDistance (lat1 lon1 lat2 lon2 : ℝ) : ℝ :=
  (6371 : ℝ) *
    (2 * atan2
      (Real.sqrt
        (Real.sin (toRad (lat2 - lat1) / 2) * Real.sin (toRad (lat2 - lat1) / 2) +
          Real.cos (toRad lat1) * Real.cos (toRad lat2) *
            Real.sin (toRad (lon2 - lon1) / 2) * Real.sin (toRad (lon2 - lon1) / 2)))
      (Real.sqrt
        (1 -
          (Real.sin (toRad (lat2 - lat1) / 2) * Real.sin (toRad (lat2 - lat1) / 2) +
            Real.cos (toRad lat1) * Real.cos (toRad lat2) *
              Real.sin (toRad (lon2 - lon1) / 2) * Real.sin (toRad (lon2 - lon1) / 2)))))

/-- Digits after `.toFixed(1)`: integer part and the single decimal digit of
`n / 10` for a nonnegative numerator `n`. -/
def oneDecimal (n : ℤ) : String := toString (n / 10) ++ "." ++ toString (n % 10)

/-- `formatDistance` of places.js lines 42-50: three display tiers. -/
noncomputable def formatDistance (distanceKm : ℝ) : String :=
  if distanceKm < 1 then toString (jsRound (distanceKm * 1000)) ++ "m"
  else if distanceKm < 10 then oneDecimal (jsRound (distanceKm * 10)) ++ "km"
  else toString (jsRound distanceKm) ++ "km"

/-! ## Places gateway (src/backend/maps/places.js lines 104-197) -/

/-- A caller-supplied origin, `userLocation = {lat, lng}`. -/
structure Origin where
  lat : ℚ
  lng : ℚ
deriving DecidableEq

/-- A photo entry as read off a provider place (`photo_reference`, `width`,
`height`). -/
structure Photo where
  photo_reference : Option String
  width : Option ℚ
  height : Option ℚ
deriving DecidableEq

/-- `place.opening_hours` as forwarded by the gateway (`open_now`,
`periods`, `weekday_text`); `periods` entries are kept opaque as strings. -/
structure OpeningHours where
  open_now : Option Bool
  periods : List String
  weekday_text : List String
deriving DecidableEq

/-- One raw result of the provider's text search, restricted to the fields
the gateway reads.  `glat`/`glng` stand for the optional chains
`place.geometry?.location?.lat` / `.lng` (absent when the provider omits
geometry). -/
structure ProviderPlace where
  place_id : Option String
  name : Option String
  formatted_address : Option String
  vicinity : Option String
  glat : Option ℚ
  glng : Option ℚ
  rating : Option ℚ
  user_ratings_total : Option ℚ
  price_level : Option ℚ
  international_phone_number : Option String
  website : Option String
  opening_hours : Option OpeningHours
  types : List String
  photos : Option (List Photo)
  permanently_closed : Option Bool

/-- The normalized PlaceRecord built at places.js lines 156-183. -/
structure PlaceRecord where
  place_id : Option String
  name : Option String
  formatted_address : Option String
  vicinity : Option String
  lat : Option ℚ
  lng : Option ℚ
  rating : Option ℚ
  user_ratings_total : Option ℚ
  price_level : Option ℚ
  phone : Option String
  website : Option String
  opening_hours : Option OpeningHours
  types : List String
  photos : List Photo
  distance_km : Option ℝ
  distance_text : Option String
  permanently_closed : Option Bool

/-- The guarded distance computation of places.js lines 149-154:
`let distance = null; if (userLocation && userLocation.lat &&
userLocation.lng && lat && lng) distance = calculateDistance(...)`.
JavaScript truthiness makes a coordinate equal to 0 fail the guard. -/
noncomputable def computeDistance (userLocation : Option Origin)
    (lat lng : Option ℚ) : Option ℝ :=
  match userLocation, lat, lng with
  | some o, some la, some ln =>
    if o.lat ≠ 0 ∧ o.lng ≠ 0 ∧ la ≠ 0 ∧ ln ≠ 0 then
      some (calculateDistance (o.lat : ℝ) (o.lng : ℝ) (la : ℝ) (ln : ℝ))
    else none
  | _, _, _ => none

/-- The `.map(place => ...)` callback of places.js lines 146-184. -/
noncomputable def mapProviderPlace (userLocation : Option Origin)
    (place : ProviderPlace) : PlaceRecord :=
  let distance := computeDistance userLocation place.glat place.glng
  { place_id := place.place_id
    name := place.name
    formatted_address := place.formatted_address
    vicinity := place.vicinity
    lat := place.glat
    lng := place.glng
    rating := place.rating
    user_ratings_total := place.user_ratings_total
    price_level := place.price_level
    phone := place.international_phone_number
    website := place.website
    opening_hours := place.opening_hours
    types := place.types
    photos := (place.photos.map (fun ps => ps.take 3)).getD []
    distance_km := distance
    distance_text := match distance with
      | some d => some (formatDistance d)
      | none => none
    permanently_closed := place.permanently_closed }

/-- An error thrown by the provider client: the HTTP status of
`error.response?.status` (absent for transport errors) and the error
message. -/
structure ProviderError where
  status : Option ℕ
  message : String
deriving DecidableEq

/-- The provider's behavior on one text-search request: a successful
response whose `response.data.results` may be absent, or a thrown error. -/
inductive ProviderResponse where
  | success (results : Option (List ProviderPlace))
  | failure (e : ProviderError)

/-- The value returned by `searchPlaces`: `results`, the optional
`search_center`, and the optional `error` string (only the 403 degrade path
sets it). -/
structure SearchResult where
  results : List PlaceRecord
  search_center : Option Origin
  error : Option String

/-- `searchPlaces` of places.js lines 114-197, with the provider's response
to the single `textSearch` call supplied as `env`.  `Except.error` models a
raised (propagated) error. -/
noncomputable def searchPlaces (env : ProviderResponse)
    (userLocation : Option Origin) : Except ProviderError SearchResult :=
  match env with
  | .failure e =>
    if e.status = some 403 then
      .ok { results := [], search_center := none,
            error := some "Google Maps API key issue - check enabled APIs" }
    else .error e
  | .success none => .ok { results := [], search_center := none, error := none }
  | .success (some places) =>
    .ok { results := (places.take 20).map (mapProviderPlace userLocation)
          search_center := userLocation
          error := none }

/-! ## Intent extractor (src/backend/agent.js lines 38-90) -/

/-- The object produced by `extractLocationIntent` (and by the race-level
fallback).  `location` is optional because the fallback of agent.js line
187 builds an object with no `location` property. -/
structure LocationIntent where
  query : String
  location : Option String
  formatted_query : String
deriving DecidableEq

/-- The extraction LLM's parsed JSON object: each of the three expected
fields may be missing. -/
structure PartialIntent where
  query : Option String
  location : Option String
  formatted_query : Option String

/-- What happens inside `extractLocationIntent`'s `try` block: the fetch
fails or returns a non-ok status (agent.js line 56), the response has no
`message.content` (line 63), `JSON.parse` throws (line 67), or a JSON
object is obtained. -/
inductive ExtractEnv where
  | httpError
  | emptyContent
  | parseError
  | parsed (p : PartialIntent)

/-- JavaScript truthiness of an optional string: `undefined` and `""` are
falsy. -/
def jsFalsyStr : Option String → Bool
  | none => true
  | some s => s == ""

/-- `extractLocationIntent` of agent.js lines 38-90.  Every failure inside
the `try` block lands in the `catch` of lines 80-89, which returns the
fallback `{query, location: "near me", formatted_query}`; on success the
missing-field defaults of lines 70-75 apply (`!extracted.query` and
`!extracted.formatted_query` are truthiness tests). -/
def extractLocationIntent (userQuery : String) (env : ExtractEnv) :
    LocationIntent :=
  match env with
  | .parsed p =>
    let q := if jsFalsyStr p.query then userQuery else p.query.getD ""
    let fq := if jsFalsyStr p.formatted_query then q else p.formatted_query.getD ""
    { query := q, location := p.location, formatted_query := fq }
  | _ => { query := userQuery, location := some "near me",
           formatted_query := userQuery }

/-- Outcome of `Promise.race` at agent.js lines 180-188: either
`extractLocationIntent` settled first (it never rejects), or the 3-second
timer rejected first. -/
inductive RaceOutcome where
  | completed (env : ExtractEnv)
  | timeout

/-- The intent the orchestrator proceeds with (agent.js lines 180-188).
On a race timeout the `.catch` of line 187 returns
`{query: userQuery, formatted_query: userQuery}` with no `location`
property. -/
def orchestratorIntent (userQuery : String) : RaceOutcome → LocationIntent
  | .completed env => extractLocationIntent userQuery env
  | .timeout => { query := userQuery, location := none,
                  formatted_query := userQuery }

/-! ## Chat orchestrator (src/backend/agent.js lines 163-226) -/

/-- One entry of the `messages` array sent to `/api/chat`. -/
structure ChatMessage where
  role : String
  content : String

/-- `messages.filter(m => m.role === "user").pop()?.content` of agent.js
line 170. -/
def lastUserMessage (messages : List ChatMessage) : Option String :=
  ((messages.filter (fun m => m.role == "user")).getLast?).map (·.content)

/-- Outcome of the narration call `streamLLMResponse` (agent.js lines
98-158): the content deltas it delivered through `onChunk`, and whether it
ended normally or threw (timeout abort or transport error) after
delivering them. -/
inductive NarrationOutcome where
  | ok (chunks : List String)
  | failAfter (chunks : List String)

/-- The content deltas delivered by the narration call before it settled. -/
def narrationChunks : NarrationOutcome → List String
  | .ok chunks => chunks
  | .failAfter chunks => chunks

/-- One observable emission of the orchestrator, tagged by call site:
`placesEvent` is the `onChunk(JSON.stringify({type: "places", data}))` of
agent.js line 207, `contentDelta` is an `onChunk` of plain narration text
(or the terminal `onChunk("")` of line 218), `errorEvent` is a call to
`onError`. -/
inductive StreamEvent where
  | placesEvent (data : List PlaceRecord)
  | contentDelta (s : String)
  | errorEvent (e : String)

/-- Whether an event is the structured places event. -/
def isPlacesEvent : StreamEvent → Bool
  | .placesEvent _ => true
  | _ => false

/-- JavaScript truthiness of `placesResult.error` at agent.js line 197. -/
def jsTruthyStr : Option String → Bool
  | none => false
  | some s => !(s == "")

/-- The external world of one chat turn: how the extraction race settles,
the provider's response as a function of the searched query string, and
how the narration call behaves. -/
structure ChatEnv where
  race : RaceOutcome
  provider : String → ProviderResponse
  narration : NarrationOutcome

/-- `streamChatWithTools` of agent.js lines 163-226, returning the ordered
list of emitted events and whether the function threw (the rethrow of line
224 after the outer `catch` ran `onError`).  A provider error other than
403 propagates out of `searchPlaces` into that outer catch; a 403 degrade
result takes the `placesResult.error` branch of lines 197-200. -/
noncomputable def streamChatWithTools (messages : List ChatMessage)
    (env : ChatEnv) (userLocation : Option Origin) :
    List StreamEvent × Bool :=
  match lastUserMessage messages with
  | none => ([.errorEvent "No user message found"], false)
  | some userQuery =>
    let extracted := orchestratorIntent userQuery env.race
    match searchPlaces (env.provider extracted.formatted_query) userLocation with
    | .error e => ([.errorEvent e.message], true)
    | .ok placesResult =>
      if jsTruthyStr placesResult.error then
        ([.errorEvent (placesResult.error.getD "")], false)
      else
        let places := placesResult.results
        (((if places.length > 0 then [StreamEvent.placesEvent places] else []) ++
            (narrationChunks env.narration).map StreamEvent.contentDelta) ++
          [StreamEvent.contentDelta ""], false)

/-- The event list of one turn. -/
noncomputable def chatEvents (messages : List ChatMessage) (env : ChatEnv)
    (userLocation : Option Origin) : List StreamEvent :=
  (streamChatWithTools messages env userLocation).1

/-! ## SSE chat endpoint (src/unnamed/part_001 lines 260-310) -/

/-- Hexadecimal digit character, lower case. -/
def hexDigit (n : ℕ) : Char :=
  if n < 10 then Char.ofNat (48 + n) else Char.ofNat (87 + n)

/-- `JSON.stringify` escaping of one character inside a string literal. -/
def jsonEscapeChar (c : Char) : List Char :=
  if c = '"' then ['\\', '"']
  else if c = '\\' then ['\\', '\\']
  else if c.toNat = 8 then ['\\', 'b']
  else if c.toNat = 12 then ['\\', 'f']
  else if c = '\n' then ['\\', 'n']
  else if c = '\r' then ['\\', 'r']
  else if c = '\t' then ['\\', 't']
  else if c.toNat < 32 then
    ['\\', 'u', '0', '0', hexDigit (c.toNat / 16), hexDigit (c.toNat % 16)]
  else [c]

/-- `JSON.stringify` of a string value. -/
def jsonQuote (s : String) : String :=
  String.mk ('"' :: (s.data.flatMap jsonEscapeChar ++ ['"']))

/-- `JSON.stringify({ content: chunk })` as written at part_001 line 291. -/
def contentWrap (chunk : String) : String :=
  "\x7b\"content\":" ++ jsonQuote chunk ++ "\x7d"

/-- Whether the first list starts with the second. -/
def charsStartWith : List Char → List Char → Bool
  | _, [] => true
  | [], _ :: _ => false
  | c :: cs, d :: ds => c == d && charsStartWith cs ds

/-- `String.prototype.startsWith` of JavaScript. -/
def strStartsWith (s pat : String) : Bool := charsStartWith s.data pat.data

/-- The framing decision of the `onChunk` callback at part_001 lines
281-293: a chunk starting with the literal text `{"type":` is forwarded
verbatim, every other chunk is wrapped as `{"content": chunk}` (the
payload of the SSE `data:` line). -/
def chatFrame (chunk : String) : String :=
  if strStartsWith chunk "\x7b\"type\":" then chunk else contentWrap chunk

/-- The SSE payload written for one orchestrator emission.  `bodyOf`
stands for `JSON.stringify` of the places array (its digit-level float
rendering is not modelled; only the fixed `{"type":"places","data":`
beginning produced by key order at agent.js line 207 matters).  An
`onError e` call writes `JSON.stringify({error: e.message})`; since the
orchestrator always passes a plain string, `e.message` is `undefined` and
the written payload is the empty object `{}`. -/
def frameOfEvent (bodyOf : List PlaceRecord → String) : StreamEvent → String
  | .placesEvent data =>
    chatFrame ("\x7b\"type\":\"places\",\"data\":" ++ bodyOf data ++ "\x7d")
  | .contentDelta s => chatFrame s
  | .errorEvent _ => "\x7b\x7d"

/-- The `POST /api/chat` handler of part_001 lines 260-310: the list of
SSE payloads written, and whether `res.end()` was reached.  When
`streamChatWithTools` rejects, control jumps to the catch of line 304
(headers already sent, so nothing more is written) and both the
`data: [DONE]` write and `res.end()` of lines 302-303 are skipped. -/
noncomputable def chatEndpoint (messages : List ChatMessage) (env : ChatEnv)
    (userLocation : Option Origin) (bodyOf : List PlaceRecord → String) :
    List String × Bool :=
  let r := streamChatWithTools messages env userLocation
  if r.2 then (r.1.map (frameOfEvent bodyOf), false)
  else (r.1.map (frameOfEvent bodyOf) ++ ["[DONE]"], true)

/-- A concrete stand-in for the unmodelled places-array serialization. -/
def emptyBody : List PlaceRecord → String := fun _ => "[]"

/-! ## Theorems -/

/-- Claim C7: for every non-negative distance input, `formatDistance`
applies the three-tier policy exactly — below 1 km meters rounded to the
nearest integer with an "m" suffix, from 1 km up to 10 km one decimal
place with a "km" suffix, at and above 10 km an integer "km" value — and
in particular 0.999 km gives "999m", 1.0 km gives "1.0km", 9.999 km gives
"10.0km", and 10.001 km gives "10km". -/
theorem formatDistance_three_tier (d : ℝ) (h : 0 ≤ d) :
    (d < 1 → formatDistance d = toString (jsRound (d * 1000)) ++ "m") ∧
    (1 ≤ d → d < 10 → formatDistance d = oneDecimal (jsRound (d * 10)) ++ "km") ∧
    (10 ≤ d → formatDistance d = toString (jsRound d) ++ "km") ∧
    formatDistance (999/1000 : ℝ) = "999m" ∧
    formatDistance (1 : ℝ) = "1.0km" ∧
    formatDistance (9999/1000 : ℝ) = "10.0km" ∧
    formatDistance (10001/1000 : ℝ) = "10km" := by
  refine ⟨fun h1 => ?_, fun h1 h2 => ?_, fun h10 => ?_, ?_, ?_, ?_, ?_⟩
  · unfold formatDistance
    rw [if_pos h1]
  · unfold formatDistance
    rw [if_neg (not_lt.mpr h1), if_pos h2]
  · unfold formatDistance
    rw [if_neg (not_lt.mpr (by linarith)), if_neg (not_lt.mpr h10)]
  · have hr : jsRound ((999/1000 : ℝ) * 1000) = 999 := by unfold jsRound; norm_num
    unfold formatDistance
    rw [if_pos (by norm_num : (999/1000 : ℝ) < 1), hr]
    decide
  · have hr : jsRound ((1 : ℝ) * 10) = 10 := by unfold jsRound; norm_num
    unfold formatDistance
    rw [if_neg (by norm_num : ¬(1 : ℝ) < 1), if_pos (by norm_num : (1 : ℝ) < 10), hr]
    decide
  · have hr : jsRound ((9999/1000 : ℝ) * 10) = 100 := by unfold jsRound; norm_num
    unfold formatDistance
    rw [if_neg (by norm_num : ¬(9999/1000 : ℝ) < 1),
      if_pos (by norm_num : (9999/1000 : ℝ) < 10), hr]
    decide
  · have hr : jsRound (10001/1000 : ℝ) = 10 := by unfold jsRound; norm_num
    unfold formatDistance
    rw [if_neg (by norm_num : ¬(10001/1000 : ℝ) < 1),
      if_neg (by norm_num : ¬(10001/1000 : ℝ) < 10), hr]
    decide

/-- Witness for C7: the tiers evaluated at 0.999 km. -/
theorem formatDistance_three_tier_witness :
    (0 : ℝ) ≤ 999/1000 ∧ (999/1000 : ℝ) < 1 ∧
      formatDistance (999/1000 : ℝ) = "999m" := by
  have h := formatDistance_three_tier (999/1000 : ℝ) (by norm_num)
  exact ⟨by norm_num, by norm_num, h.2.2.2.1⟩

/-- Claim C8: the haversine distance of `calculateDistance` (fixed Earth
radius 6371 km) from any point to itself is 0, and it is symmetric in its
two argument points. -/
theorem calculateDistance_self_and_symm :
    (∀ lat lon : ℝ, calculateDistance lat lon lat lon = 0) ∧
    (∀ lat1 lon1 lat2 lon2 : ℝ,
      calculateDistance lat1 lon1 lat2 lon2 =
        calculateDistance lat2 lon2 lat1 lon1) := by
  constructor
  · intro lat lon
    unfold calculateDistance toRad atan2
    simp [Real.sin_zero]
  · intro lat1 lon1 lat2 lon2
    unfold calculateDistance
    have h1 : toRad (lat1 - lat2) = -toRad (lat2 - lat1) := by unfold toRad; ring
    have h2 : toRad (lon1 - lon2) = -toRad (lon2 - lon1) := by unfold toRad; ring
    have ha :
        Real.sin (toRad (lat1 - lat2) / 2) * Real.sin (toRad (lat1 - lat2) / 2) +
          Real.cos (toRad lat2) * Real.cos (toRad lat1) *
            Real.sin (toRad (lon1 - lon2) / 2) * Real.sin (toRad (lon1 - lon2) / 2) =
        Real.sin (toRad (lat2 - lat1) / 2) * Real.sin (toRad (lat2 - lat1) / 2) +
          Real.cos (toRad lat1) * Real.cos (toRad lat2) *
            Real.sin (toRad (lon2 - lon1) / 2) * Real.sin (toRad (lon2 - lon1) / 2) := by
      rw [h1, h2, neg_div, Real.sin_neg, neg_div, Real.sin_neg]; ring
    rw [ha]

lemma mapProviderPlace_distance_km (u : Option Origin) (p : ProviderPlace) :
    (mapProviderPlace u p).distance_km = computeDistance u p.glat p.glng := by
  unfold mapProviderPlace; rfl

lemma mapProviderPlace_distance_text (u : Option Origin) (p : ProviderPlace) :
    (mapProviderPlace u p).distance_text.isSome =
      (mapProviderPlace u p).distance_km.isSome := by
  unfold mapProviderPlace
  rcases h : computeDistance u p.glat p.glng with _ | d <;> simp [h]

lemma mapProviderPlace_distance_text_none (u : Option Origin)
    (p : ProviderPlace) (h : computeDistance u p.glat p.glng = none) :
    (mapProviderPlace u p).distance_text = none := by
  unfold mapProviderPlace; simp [h]

lemma computeDistance_isSome (u : Option Origin) (la ln : Option ℚ) :
    (computeDistance u la ln).isSome = true ↔
      (∃ o, u = some o ∧ o.lat ≠ 0 ∧ o.lng ≠ 0) ∧
      (∃ a, la = some a ∧ a ≠ 0) ∧
      (∃ b, ln = some b ∧ b ≠ 0) := by
  unfold computeDistance
  rcases u with _ | o <;> rcases la with _ | a <;> rcases ln with _ | b <;>
    simp <;> tauto

lemma computeDistance_none_lat (u : Option Origin) (ln : Option ℚ) :
    computeDistance u none ln = none := by
  unfold computeDistance
  rcases u with _ | o <;> rcases ln with _ | b <;> rfl

lemma computeDistance_none_lng (u : Option Origin) (la : Option ℚ) :
    computeDistance u la none = none := by
  unfold computeDistance
  rcases u with _ | o <;> rcases la with _ | a <;> rfl

/-- A provider record at the equator (latitude 0) with both coordinates
present. -/
def place0 : ProviderPlace :=
  { place_id := some "p0", name := some "Equator Cafe",
    formatted_address := none, vicinity := none, glat := some 0,
    glng := some 2, rating := none, user_ratings_total := none,
    price_level := none, international_phone_number := none, website := none,
    opening_hours := none, types := [], photos := none,
    permanently_closed := none }

/-- A provider record whose geometry is absent. -/
def placeNoGeom : ProviderPlace :=
  { place_id := some "p1", name := some "No Geometry",
    formatted_address := none, vicinity := none, glat := none, glng := none,
    rating := none, user_ratings_total := none, price_level := none,
    international_phone_number := none, website := none,
    opening_hours := none, types := [], photos := none,
    permanently_closed := none }

/-- A concrete origin. -/
def origin0 : Origin := ⟨1, 2⟩

/-- Counterexample to claim C3 as stated: `place0` has both coordinates
present (latitude 0, on the equator) and an origin is supplied, yet the
mapped record has no distance fields, because the JavaScript guard
`userLocation && userLocation.lat && userLocation.lng && lat && lng`
treats the coordinate 0 as falsy. -/
theorem placeRecord_distance_iff_counterexample :
    place0.glat.isSome = true ∧ place0.glng.isSome = true ∧
    (mapProviderPlace (some origin0) place0).distance_km = none ∧
    (mapProviderPlace (some origin0) place0).distance_text = none := by
  refine ⟨rfl, rfl, ?_, ?_⟩ <;>
    simp [mapProviderPlace, computeDistance, place0, origin0]

/-- Claim C3 (amended): the distance fields of a mapped PlaceRecord are
present if and only if the origin is supplied with both of its coordinates
nonzero and the record has both coordinates present and nonzero (JS
truthiness treats 0 like an absent coordinate); `distance_text` is present
exactly when `distance_km` is; and a record without geometry has no
distance fields regardless of origin. -/
theorem placeRecord_distance_iff (userLocation : Option Origin)
    (p : ProviderPlace) :
    ((mapProviderPlace userLocation p).distance_km.isSome = true ↔
      (∃ o, userLocation = some o ∧ o.lat ≠ 0 ∧ o.lng ≠ 0) ∧
      (∃ la, p.glat = some la ∧ la ≠ 0) ∧
      (∃ ln, p.glng = some ln ∧ ln ≠ 0)) ∧
    ((mapProviderPlace userLocation p).distance_text.isSome =
      (mapProviderPlace userLocation p).distance_km.isSome) ∧
    (p.glat = none ∨ p.glng = none →
      (mapProviderPlace userLocation p).distance_km = none ∧
      (mapProviderPlace userLocation p).distance_text = none) := by
  refine ⟨?_, mapProviderPlace_distance_text _ _, ?_⟩
  · rw [mapProviderPlace_distance_km]
    exact computeDistance_isSome _ _ _
  · intro hg
    have hnone : computeDistance userLocation p.glat p.glng = none := by
      rcases hg with h | h <;> rw [h]
      · exact computeDistance_none_lat _ _
      · exact computeDistance_none_lng _ _
    exact ⟨by rw [mapProviderPlace_distance_km, hnone],
      mapProviderPlace_distance_text_none _ _ hnone⟩

/-- Witness for the amended C3: a record without geometry gets no distance
fields even though an origin is supplied. -/
theorem placeRecord_distance_iff_witness :
    (mapProviderPlace (some origin0) placeNoGeom).distance_km = none ∧
    (mapProviderPlace (some origin0) placeNoGeom).distance_text = none :=
  (placeRecord_distance_iff (some origin0) placeNoGeom).2.2 (Or.inl rfl)

/-- Claim C6: a provider authorization failure (HTTP 403) makes
`searchPlaces` return an empty result list together with an explanatory
error string instead of throwing, while any other provider failure
propagates to the caller as a raised error. -/
theorem searchPlaces_auth_degrade (e : ProviderError) (uloc : Option Origin) :
    (e.status = some 403 →
      searchPlaces (.failure e) uloc =
        .ok { results := [], search_center := none,
              error := some "Google Maps API key issue - check enabled APIs" }) ∧
    (e.status ≠ some 403 → searchPlaces (.failure e) uloc = .error e) := by
  constructor
  · intro h; simp [searchPlaces, h]
  · intro h; simp [searchPlaces, h]

/-- Witness for C6: a 403 failure degrades, a 500 failure propagates. -/
theorem searchPlaces_auth_degrade_witness :
    searchPlaces (.failure ⟨some 403, "forbidden"⟩) none =
      .ok { results := [], search_center := none,
            error := some "Google Maps API key issue - check enabled APIs" } ∧
    searchPlaces (.failure ⟨some 500, "server error"⟩) none =
      .error ⟨some 500, "server error"⟩ :=
  ⟨(searchPlaces_auth_degrade ⟨some 403, "forbidden"⟩ none).1 rfl,
   (searchPlaces_auth_degrade ⟨some 500, "server error"⟩ none).2 (by decide)⟩

/-- Counterexample to claim C2 as stated: when the 3-second race timeout
fires, the fallback of agent.js line 187 is `{query: userQuery,
formatted_query: userQuery}` with no `location` property, so it is not the
claimed `{query, location: "near me", formatted_query}`. -/
theorem extraction_fallback_counterexample :
    orchestratorIntent "find pizza" .timeout ≠
      { query := "find pizza", location := some "near me",
        formatted_query := "find pizza" } := by
  decide

/-- Claim C2 (amended): when intent extraction fails, the orchestrator
proceeds with a fallback intent whose `query` and `formatted_query` are
the raw utterance — with `location` set to "near me" when
`extractLocationIntent` itself fails (LLM HTTP error, empty content,
malformed JSON), but with no `location` field when the 3-second race
timeout fires — and in every case the extraction outcome propagates no
error to the caller: with a fixed gateway and narration behavior the
emitted stream does not depend on the extraction outcome at all. -/
theorem extraction_fallback (u : String) :
    (∀ env : ExtractEnv,
      (env = .httpError ∨ env = .emptyContent ∨ env = .parseError) →
      extractLocationIntent u env =
        { query := u, location := some "near me", formatted_query := u }) ∧
    orchestratorIntent u .timeout =
      { query := u, location := none, formatted_query := u } ∧
    (∀ (messages : List ChatMessage) (uloc : Option Origin)
        (r r' : RaceOutcome) (resp : ProviderResponse)
        (narr : NarrationOutcome),
      streamChatWithTools messages ⟨r, fun _ => resp, narr⟩ uloc =
        streamChatWithTools messages ⟨r', fun _ => resp, narr⟩ uloc) := by
  refine ⟨?_, rfl, ?_⟩
  · intro env h
    rcases h with h | h | h <;> subst h <;> rfl
  · intro messages uloc r r' resp narr
    unfold streamChatWithTools
    rcases h : lastUserMessage messages with _ | q <;> simp [h]

/-- Witness for the amended C2: malformed JSON yields the "near me"
fallback. -/
theorem extraction_fallback_witness :
    extractLocationIntent "pizza" .parseError =
      { query := "pizza", location := some "near me",
        formatted_query := "pizza" } :=
  (extraction_fallback "pizza").1 .parseError (Or.inr (Or.inr rfl))

lemma chatEvents_ok (messages : List ChatMessage) (env : ChatEnv)
    (uloc : Option Origin) (q : String) (pr : SearchResult)
    (hq : lastUserMessage messages = some q)
    (hp : searchPlaces
      (env.provider (orchestratorIntent q env.race).formatted_query) uloc =
        .ok pr)
    (he : jsTruthyStr pr.error = false) :
    chatEvents messages env uloc =
      ((if pr.results.length > 0 then [StreamEvent.placesEvent pr.results]
          else []) ++
        (narrationChunks env.narration).map StreamEvent.contentDelta) ++
      [StreamEvent.contentDelta ""] ∧
    (streamChatWithTools messages env uloc).2 = false := by
  unfold chatEvents streamChatWithTools
  simp [hq, hp, he]

/-- Claim C1: when the places search succeeds, the turn's stream starts
with exactly one structured places event if the result list is non-empty
(so it precedes every narration content delta), every following event is a
content delta, and the empty terminal content delta is last; when the
result list is empty no places event is emitted. -/
theorem orchestrator_places_ordering (messages : List ChatMessage)
    (env : ChatEnv) (uloc : Option Origin) (q : String) (pr : SearchResult)
    (hq : lastUserMessage messages = some q)
    (hp : searchPlaces
      (env.provider (orchestratorIntent q env.race).formatted_query) uloc =
        .ok pr)
    (he : jsTruthyStr pr.error = false) :
    (pr.results ≠ [] →
      (chatEvents messages env uloc).head? =
        some (.placesEvent pr.results) ∧
      (∀ e ∈ (chatEvents messages env uloc).tail,
        ∃ s, e = StreamEvent.contentDelta s) ∧
      (chatEvents messages env uloc).countP isPlacesEvent = 1 ∧
      (chatEvents messages env uloc).getLast? =
        some (.contentDelta "")) ∧
    (pr.results = [] →
      ∀ e ∈ chatEvents messages env uloc,
        ∃ s, e = StreamEvent.contentDelta s) := by
  obtain ⟨hev, -⟩ := chatEvents_ok messages env uloc q pr hq hp he
  constructor
  · intro hne
    have hlen : pr.results.length > 0 := List.length_pos.mpr hne
    rw [hev, if_pos hlen]
    refine ⟨rfl, ?_, ?_, ?_⟩
    · intro e hmem
      simp [List.mem_append, List.mem_map] at hmem
      rcases hmem with ⟨s, _, rfl⟩ | rfl
      · exact ⟨s, rfl⟩
      · exact ⟨"", rfl⟩
    · simp [List.countP_append, List.countP_map, isPlacesEvent,
        List.countP_cons]
    · exact List.getLast?_concat _
  · intro hnil
    rw [hev, if_neg (by simp [hnil])]
    intro e hmem
    simp [List.mem_append, List.mem_map] at hmem
    rcases hmem with ⟨s, _, rfl⟩ | rfl
    · exact ⟨s, rfl⟩
    · exact ⟨"", rfl⟩

/-- Claim C4: when the gateway reports an error (its `error` field is a
non-empty string, as the 403 degrade path produces), the orchestrator
emits exactly one error event and ends the turn: no places event, no
narration deltas, no terminal empty delta. -/
theorem orchestrator_gateway_error (messages : List ChatMessage)
    (env : ChatEnv) (uloc : Option Origin) (q : String) (pr : SearchResult)
    (msg : String)
    (hq : lastUserMessage messages = some q)
    (hp : searchPlaces
      (env.provider (orchestratorIntent q env.race).formatted_query) uloc =
        .ok pr)
    (he : pr.error = some msg) (hm : msg ≠ "") :
    streamChatWithTools messages env uloc = ([.errorEvent msg], false) := by
  unfold streamChatWithTools
  simp [hq, hp, he, jsTruthyStr, hm]

/-- The message list of a turn with one user utterance. -/
def msgs0 : List ChatMessage := [⟨"user", "coffee near me"⟩]

/-- A chat environment whose provider rejects every search with HTTP 403. -/
def env403 : ChatEnv :=
  ⟨.timeout, fun _ => .failure ⟨some 403, "Request forbidden"⟩, .ok []⟩

/-- Witness for C4: the 403 degrade path produces exactly one error
event. -/
theorem orchestrator_gateway_error_witness :
    streamChatWithTools msgs0 env403 none =
      ([.errorEvent "Google Maps API key issue - check enabled APIs"],
        false) :=
  orchestrator_gateway_error msgs0 env403 none "coffee near me"
    ⟨[], none, some "Google Maps API key issue - check enabled APIs"⟩
    "Google Maps API key issue - check enabled APIs" rfl rfl rfl (by decide)

/-- Claim C5: when the places search succeeds but the narration call
fails, the failure is swallowed — no error event is emitted, the turn
still ends with the terminal empty content delta, and when places were
found the places event still opens the stream. -/
theorem orchestrator_narration_swallowed (messages : List ChatMessage)
    (env : ChatEnv) (uloc : Option Origin) (q : String) (pr : SearchResult)
    (chunks : List String)
    (hq : lastUserMessage messages = some q)
    (hp : searchPlaces
      (env.provider (orchestratorIntent q env.race).formatted_query) uloc =
        .ok pr)
    (he : jsTruthyStr pr.error = false)
    (hn : env.narration = .failAfter chunks) :
    (∀ e ∈ chatEvents messages env uloc, ∀ m, e ≠ StreamEvent.errorEvent m) ∧
    (chatEvents messages env uloc).getLast? = some (.contentDelta "") ∧
    (pr.results ≠ [] →
      (chatEvents messages env uloc).head? =
        some (.placesEvent pr.results)) := by
  obtain ⟨hev, -⟩ := chatEvents_ok messages env uloc q pr hq hp he
  refine ⟨?_, ?_, ?_⟩
  · intro e hmem m
    rw [hev] at hmem
    by_cases hl : pr.results.length > 0
    · rw [if_pos hl] at hmem
      simp at hmem
      rcases hmem with rfl | ⟨s, _, rfl⟩ | rfl <;> simp
    · rw [if_neg hl] at hmem
      simp at hmem
      rcases hmem with ⟨s, _, rfl⟩ | rfl <;> simp
  · rw [hev]
    exact List.getLast?_concat _
  · intro hne
    rw [hev, if_pos (List.length_pos.mpr hne)]
    rfl

/-- A chat environment with one found place and a narration call that
throws after one delivered delta. -/
def envFail : ChatEnv :=
  ⟨.timeout, fun _ => .success (some [place0]), .failAfter ["partial"]⟩

/-- Witness for C5: with a failing narration the turn still ends in the
terminal empty delta after the places event. -/
theorem orchestrator_narration_swallowed_witness :
    (chatEvents msgs0 envFail none).getLast? =
      some (.contentDelta "") ∧
    (chatEvents msgs0 envFail none).head? =
      some (.placesEvent [mapProviderPlace none place0]) := by
  have h := orchestrator_narration_swallowed msgs0 envFail none
    "coffee near me" ⟨[mapProviderPlace none place0], none, none⟩
    ["partial"] rfl rfl rfl rfl
  exact ⟨h.2.1, h.2.2 (by simp)⟩

/-- A chat environment with one found place and a well-behaved narration
call. -/
def envOk : ChatEnv :=
  ⟨.timeout, fun _ => .success (some [place0]), .ok ["Here are some cafes."]⟩

/-- Witness for C1: a successful one-place turn has exactly one places
event, and the terminal empty delta is last. -/
theorem orchestrator_places_ordering_witness :
    (chatEvents msgs0 envOk none).countP isPlacesEvent = 1 ∧
    (chatEvents msgs0 envOk none).getLast? = some (.contentDelta "") := by
  have h := orchestrator_places_ordering msgs0 envOk none "coffee near me"
    ⟨[mapProviderPlace none place0], none, none⟩ rfl rfl rfl
  have h2 := h.1 (by simp)
  exact ⟨h2.2.2.1, h2.2.2.2⟩

lemma jsonEscapeChar_len (c : Char) : 1 ≤ (jsonEscapeChar c).length := by
  unfold jsonEscapeChar
  repeat' split
  all_goals simp

lemma flatMap_escape_len (l : List Char) :
    l.length ≤ (l.flatMap jsonEscapeChar).length := by
  induction l with
  | nil => simp
  | cons c cs ih =>
    simp only [List.flatMap_cons, List.length_append, List.length_cons]
    have := jsonEscapeChar_len c
    omega

lemma contentWrap_length (s : String) :
    (contentWrap s).length = (s.data.flatMap jsonEscapeChar).length + 14 := by
  unfold contentWrap jsonQuote
  rw [String.length_append, String.length_append]
  have h1 : ("\x7b\"content\":" : String).length = 11 := by decide
  have h2 : ("\x7d" : String).length = 1 := by decide
  have h3 : (String.mk ('"' :: (s.data.flatMap jsonEscapeChar ++ ['"']))).length
      = (s.data.flatMap jsonEscapeChar).length + 2 := by
    show ('"' :: (s.data.flatMap jsonEscapeChar ++ ['"'])).length = _
    simp
  rw [h1, h2, h3]
  omega

lemma contentWrap_ne (s : String) : contentWrap s ≠ s := by
  intro h
  have hlen := congrArg String.length h
  have h1 := flatMap_escape_len s.data
  have h2 := contentWrap_length s
  have h3 : s.length = s.data.length := rfl
  omega

/-- Claim C10: the SSE chat endpoint frames every orchestrator chunk by a
string-test on its beginning: a chunk is forwarded verbatim as a
structured frame exactly when it starts with the literal text `{"type":`,
and every other chunk (including the empty terminal chunk) is wrapped as
`{"content": chunk}`; consequently a narration content delta whose text
begins with `{"type":` is forwarded verbatim (mis-framed as structured)
instead of being wrapped. -/
theorem chat_frame_test (chunk : String) :
    (strStartsWith chunk "\x7b\"type\":" = true →
      chatFrame chunk = chunk ∧ chatFrame chunk ≠ contentWrap chunk) ∧
    (strStartsWith chunk "\x7b\"type\":" = false →
      chatFrame chunk = contentWrap chunk ∧ chatFrame chunk ≠ chunk) ∧
    (∀ bodyOf : List PlaceRecord → String,
      strStartsWith chunk "\x7b\"type\":" = true →
        frameOfEvent bodyOf (.contentDelta chunk) = chunk) := by
  refine ⟨?_, ?_, ?_⟩
  · intro h
    unfold chatFrame
    rw [if_pos h]
    exact ⟨rfl, fun hc => contentWrap_ne chunk hc.symm⟩
  · intro h
    unfold chatFrame
    rw [if_neg (by simp [h])]
    exact ⟨rfl, contentWrap_ne chunk⟩
  · intro bodyOf h
    show chatFrame chunk = chunk
    unfold chatFrame
    rw [if_pos h]

/-- Witness for C10: a delta that happens to begin with the structured
marker is forwarded verbatim, the empty terminal chunk is wrapped. -/
theorem chat_frame_test_witness :
    chatFrame "\x7b\"type\":\"places\",\"data\":[]\x7d" =
      "\x7b\"type\":\"places\",\"data\":[]\x7d" ∧
    chatFrame "" = contentWrap "" := by
  refine ⟨((chat_frame_test _).1 (by decide)).1,
    ((chat_frame_test "").2.1 (by decide)).1⟩

/-- A chat environment whose provider throws a non-403 (internal) error. -/
def env500 : ChatEnv :=
  ⟨.timeout, fun _ => .failure ⟨some 500, "Internal provider error"⟩, .ok []⟩

/-- Claim C9 evaluated at a failing input (code bug): when an unexpected
internal error occurs after the SSE stream is open — here the provider
throwing a non-403 error out of `searchPlaces` — the orchestrator does
call `onError` and rethrows, but the rethrow jumps over the endpoint's
`data: [DONE]` write and `res.end()`: the stream receives no terminal
marker and is never ended, contradicting the claim that the caller always
receives a terminal marker so the client does not hang.  (The error frame
actually written is the empty object, because the endpoint serializes
`error.message` of a plain string.) -/
theorem chat_endpoint_no_terminal_on_internal_error :
    streamChatWithTools msgs0 env500 none =
      ([.errorEvent "Internal provider error"], true) ∧
    (chatEndpoint msgs0 env500 none emptyBody).1 = ["\x7b\x7d"] ∧
    "[DONE]" ∉ (chatEndpoint msgs0 env500 none emptyBody).1 ∧
    (chatEndpoint msgs0 env500 none emptyBody).2 = false := by
  have h : streamChatWithTools msgs0 env500 none =
      ([.errorEvent "Internal provider error"], true) := rfl
  refine ⟨h, ?_, ?_, ?_⟩ <;> simp [chatEndpoint, h, frameOfEvent]

end HeyPico
